import Mathlib

/-!
Shallow embedding of the wake-cycle tool server
(`src/tools/wake-tools/main.py`): JSON-shaped documents, the durable
document store (`load_json`/`save_json`), and the tool endpoints
`read_state`, `write_state`, `read_backlog`, `update_task`, `add_task`
and `send_notification`, together with proofs of the behavioural
properties stated in the specification.
-/

namespace WakeTools

/-- A JSON value, as produced by `json.load` / consumed by `json.dump`.
Numbers are modelled as integers (every number the server itself writes
is an integer). -/
inductive JValue where
  | null
  | bool (b : Bool)
  | num (n : Int)
  | str (s : String)
  | arr (xs : List JValue)
  | obj (fields : List (String × JValue))

/-- A JSON object (Python `dict`), as an association list with unique keys. -/
abbrev Doc := List (String × JValue)

/-- Python `d.get(k)` / `d.get(k, None)`: the value at key `k`, if present. -/
def getKey : Doc → String → Option JValue
  | [], _ => none
  | (k', v) :: rest, k => if k' = k then some v else getKey rest k

/-- Python `d.get(k, default)`. -/
def getKeyD (doc : Doc) (k : String) (d : JValue) : JValue :=
  (getKey doc k).getD d

/-- Python `d[k] = v`: replace the value at `k`, or append the binding. -/
def setKey : Doc → String → JValue → Doc
  | [], k, v => [(k, v)]
  | (k', v') :: rest, k, v =>
      if k' = k then (k, v) :: rest else (k', v') :: setKey rest k v

/-- Python falsiness of a JSON value (`not x`). -/
def JValue.falsy : JValue → Bool
  | .null => true
  | .bool b => !b
  | .num n => n == 0
  | .str s => s == ""
  | .arr xs => xs.isEmpty
  | .obj fs => fs.isEmpty

/-- Python `bool(d.get(k))`: key present with a truthy value. -/
def keyTruthy (doc : Doc) (k : String) : Bool :=
  match getKey doc k with
  | none => false
  | some v => !v.falsy

/-- Python integer coercion as used by `x + 1`: ints are ints, bools are
ints (`True + 1 == 2`), everything else raises `TypeError` (`none`). -/
def asPyInt : JValue → Option Int
  | .num n => some n
  | .bool b => some (if b then 1 else 0)
  | _ => none

/-- Python `d.get(k, intDefault)` used in integer position: the default if
the key is absent, the integer value if convertible, `none` (a raised
`TypeError`) otherwise. -/
def getIntD (doc : Doc) (k : String) (d : Int) : Option Int :=
  match getKey doc k with
  | none => some d
  | some v => asPyInt v

/-- `DEFAULT_STATE` from the source. -/
def DEFAULT_STATE : Doc :=
  [("version", .str "1.0"),
   ("wake_count", .num 0),
   ("created_at", .null),
   ("last_wake", .null),
   ("current_focus", .str "Initial setup"),
   ("active_tasks", .arr []),
   ("capabilities", .obj
     [("read_state", .bool true),
      ("write_state", .bool true),
      ("read_backlog", .bool true),
      ("update_task", .bool true),
      ("log_accomplishment", .bool true),
      ("send_notification", .bool true)]),
   ("metrics", .obj
     [("total_accomplishments", .num 0),
      ("tasks_completed", .num 0),
      ("notifications_sent", .num 0)])]

/-- `DEFAULT_BACKLOG` from the source. -/
def DEFAULT_BACKLOG : Doc := [("tasks", .arr [])]

/-- The contents of a backing path: absent, unparseable bytes, or a stored
JSON document. -/
inductive FileContent where
  | missing
  | corrupt
  | doc (d : Doc)

/-- `load_json(path, default)`: the parsed document when the file exists
and parses, `default` when the file is missing or any exception occurs
(the exception is logged as a warning, never raised). -/
def load_json : FileContent → Doc → Doc
  | .missing, d => d
  | .corrupt, d => d
  | .doc j, _ => j

/-- `read_state` core (`/tools/read_state`), acting on the loaded state
document with `t` the current time (`now_iso()`):
increments `wake_count`, sets `last_wake`, sets `created_at` when falsy.
`none` models the `TypeError` raised when `wake_count` holds a value that
cannot be added to 1. -/
def read_state (state : Doc) (t : String) : Option Doc :=
  match getIntD state "wake_count" 0 with
  | none => none
  | some n =>
    let s1 := setKey state "wake_count" (.num (n + 1))
    let s2 := setKey s1 "last_wake" (.str t)
    some (if keyTruthy s2 "created_at" then s2 else setKey s2 "created_at" (.str t))

/-- `write_state` core (`/tools/write_state`): overwrites the four
server-owned fields of the caller-supplied document `update` with the
values from the existing state document, then persists the result. -/
def write_state (existing update : Doc) : Doc :=
  let n1 := setKey update "version" (getKeyD existing "version" (.str "1.0"))
  let n2 := setKey n1 "wake_count" (getKeyD existing "wake_count" (.num 0))
  let n3 := setKey n2 "created_at" (getKeyD existing "created_at" .null)
  setKey n3 "last_wake" (getKeyD existing "last_wake" .null)

/-- `backlog.get("tasks", [])`: the task list, `[]` when the key is
absent; `none` (iteration failure) when the value is not a list. -/
def tasksOf (backlog : Doc) : Option (List JValue) :=
  match getKey backlog "tasks" with
  | none => some []
  | some (.arr xs) => some xs
  | some _ => none

/-- Coerce every element of a task list to a dict, as the comprehensions
`[t.get(...) for t in tasks]` require; `none` models the
`AttributeError` raised on a non-dict element. -/
def asObjs : List JValue → Option (List Doc)
  | [] => some []
  | .obj fs :: rest => (asObjs rest).map (fs :: ·)
  | _ :: _ => none

/-- `t.get("status") == status_filter` (equality against a Python str). -/
def statusMatches (t : Doc) (status_filter : String) : Bool :=
  match getKey t "status" with
  | some (.str s) => s == status_filter
  | _ => false

/-- The dict `priority_order = {"urgent": 0, "high": 1, "normal": 2, "low": 3}`. -/
def priority_order (s : String) : Option Nat :=
  if s = "urgent" then some 0
  else if s = "high" then some 1
  else if s = "normal" then some 2
  else if s = "low" then some 3
  else none

/-- The sort key `priority_order.get(t.get("priority", "normal"), 2)`:
a missing priority defaults to `"normal"`, and any value that is not a
key of `priority_order` (an unrecognized string, or a hashable non-string
such as null, a bool or a number) falls back to 2. -/
def prKey (t : Doc) : Nat :=
  match getKey t "priority" with
  | none => (priority_order "normal").getD 2
  | some (.str s) => (priority_order s).getD 2
  | some _ => 2

/-- The comparison `list.sort` performs under the `priority_order` key. -/
def taskLE (a b : Doc) : Bool := prKey a ≤ prKey b

/-- Whether the task's priority value is hashable: an unhashable value
(list or dict) makes `priority_order.get` raise `TypeError`. -/
def hashablePriority (t : Doc) : Bool :=
  match getKey t "priority" with
  | some (.arr _) => false
  | some (.obj _) => false
  | _ => true

/-- `read_backlog` core (`/tools/read_backlog`): filter the tasks by
status unless the filter is `"all"`, then sort stably by priority
(`list.sort` with the `priority_order` key); returns the tasks and their
count; `none` models a raised exception (non-list tasks value, non-dict
task, or unhashable priority). The stored document is not written back. -/
def read_backlog (backlog : Doc) (status_filter : String) :
    Option (List Doc × Nat) :=
  match tasksOf backlog with
  | none => none
  | some xs =>
    match asObjs xs with
    | none => none
    | some tasks =>
      let tasks :=
        if status_filter = "all" then tasks
        else tasks.filter (fun t => statusMatches t status_filter)
      if tasks.all hashablePriority then
        let sorted := tasks.mergeSort taskLE
        some (sorted, sorted.length)
      else none

/-- The in-place mutation applied to the matched task in `update_task`:
set `status`, set `updated_at = now`, overwrite `notes` only when the
supplied notes are truthy (`if update.notes:`), and set
`completed_at = now` when the new status is `"completed"`. -/
def applyTaskUpdate (task : Doc) (status : String) (notes : Option String)
    (t : String) : Doc :=
  let t1 := setKey task "status" (.str status)
  let t2 := setKey t1 "updated_at" (.str t)
  let t3 :=
    match notes with
    | some s => if s ≠ "" then setKey t2 "notes" (.str s) else t2
    | none => t2
  if status = "completed" then setKey t3 "completed_at" (.str t) else t3

/-- Result of the `for task in backlog.get("tasks", [])` search loop in
`update_task`: the loop breaks at the first task whose `id` equals
`task_id`; a non-dict element reached before a match raises
(`AttributeError`). -/
inductive LoopResult where
  | raised
  | notFound
  | found (tasks : List JValue)

/-- `task.get("id") == update.task_id` (equality against a Python str). -/
def idMatches (task : Doc) (task_id : String) : Bool :=
  match getKey task "id" with
  | some (.str s) => s == task_id
  | _ => false

/-- The `update_task` search-and-mutate loop over the raw task list. -/
def updateLoop (tasks : List JValue) (task_id status : String)
    (notes : Option String) (t : String) : LoopResult :=
  match tasks with
  | [] => .notFound
  | .obj task :: rest =>
    if idMatches task task_id then
      .found (.obj (applyTaskUpdate task status notes t) :: rest)
    else
      match updateLoop rest task_id status notes t with
      | .found rest' => .found (.obj task :: rest')
      | r => r
  | _ :: _ => .raised

/-- The metric bump `state["metrics"][name] = state["metrics"].get(name, 0) + 1`
shared by `update_task`, `log_accomplishment` and `send_notification`:
`none` models the `KeyError`/`TypeError` raised when `metrics` is absent
or not a dict, or the stored counter is not a number. -/
def bumpMetric (state : Doc) (name : String) : Option Doc :=
  match getKey state "metrics" with
  | some (.obj m) =>
    match getKey m name with
    | none => some (setKey state "metrics" (.obj (setKey m name (.num 1))))
    | some v =>
      match asPyInt v with
      | none => none
      | some k => some (setKey state "metrics" (.obj (setKey m name (.num (k + 1)))))
  | _ => none

/-- `f"task-{n:03d}"`: decimal, zero-padded on the left to width 3. -/
def pad3 (n : Nat) : String :=
  if n < 10 then "00" ++ toString n
  else if n < 100 then "0" ++ toString n
  else toString n

/-- The task document constructed by `add_task`. -/
def newTaskDoc (task_id title description priority t : String) : Doc :=
  [("id", .str task_id),
   ("title", .str title),
   ("description", .str description),
   ("priority", .str priority),
   ("status", .str "pending"),
   ("created_at", .str t)]

/-- `add_task` core (`/tools/add_task`): derive the id from the current
task count, append the new pending task, and return the updated backlog
document plus the new id; `none` models a raised exception while listing
the existing ids. -/
def add_task (backlog : Doc) (title description priority t : String) :
    Option (Doc × String) :=
  match tasksOf backlog with
  | none => none
  | some xs =>
    match asObjs xs with
    | none => none
    | some existing =>
      let task_num := existing.length + 1
      let task_id := "task-" ++ pad3 task_num
      let new_task := newTaskDoc task_id title description priority t
      some (setKey backlog "tasks" (.arr (xs ++ [.obj new_task])), task_id)

/-- The payload forwarded to the webhook by `send_notification`. -/
structure WebhookPayload where
  message : String
  priority : String
  timestamp : String

/-- `send_notification` core (`/tools/send_notification`): bump
`notifications_sent`, then forward `{message, priority, timestamp}` only
when a webhook is configured (non-empty) and the priority is high or
urgent. `deliveryOk` is the outcome of the external HTTP post; the
surrounding `try/except` swallows a failure, so the result does not
depend on it. `none` models the exception raised by an ill-formed
metrics object. -/
def send_notification (state : Doc) (message priority : String)
    (webhook : String) (t : String) (deliveryOk : Bool) :
    Option (Doc × Option WebhookPayload) :=
  match bumpMetric state "notifications_sent" with
  | none => none
  | some s' =>
    let fwd :=
      if webhook ≠ "" ∧ (priority = "high" ∨ priority = "urgent") then
        some ⟨message, priority, t⟩
      else none
    some (s', fwd)

/-- The persistent store: the backing files at `STATE_PATH` and
`BACKLOG_PATH` (the accomplishments file is not touched by the
operations treated here). -/
structure Store where
  stateF : FileContent
  backlogF : FileContent

/-- The observable response of an endpoint. -/
inductive Resp where
  | okState (state : Doc)
  | okMsg (message : String)
  | okTasks (tasks : List Doc) (total : Nat)
  | okTaskId (task_id : String) (message : String)
  | httpError (code : Nat) (detail : String)
  | serverError

/-- `/tools/read_state` at the store level: load (default when missing or
corrupt), apply the core transformation, persist, return the state. An
unhandled exception leaves the store untouched (it is raised before the
save). -/
def readStateStore (st : Store) (t : String) : Store × Resp :=
  match read_state (load_json st.stateF DEFAULT_STATE) t with
  | none => (st, .serverError)
  | some s => ({ st with stateF := .doc s }, .okState s)

/-- Iterated `read_state` calls at the successive times `ts`. -/
def readStateSeq (st : Store) : List String → Store
  | [] => st
  | t :: ts => readStateSeq (readStateStore st t).1 ts

/-- `/tools/write_state` at the store level. -/
def writeStateStore (st : Store) (update : Doc) : Store × Resp :=
  let existing := load_json st.stateF DEFAULT_STATE
  ({ st with stateF := .doc (write_state existing update) }, .okMsg "State updated")

/-- `/tools/read_backlog` at the store level: no write is performed. -/
def readBacklogStore (st : Store) (status_filter : String) : Store × Resp :=
  match read_backlog (load_json st.backlogF DEFAULT_BACKLOG) status_filter with
  | none => (st, .serverError)
  | some (tasks, total) => (st, .okTasks tasks total)

/-- `/tools/update_task` at the store level: on no match, raise
`HTTPException(404, ...)` before any save; on a match, save the backlog,
and when the new status is `"completed"` additionally bump
`tasks_completed` in the state document (a second, separate save). An
exception in the bump occurs after the backlog save. -/
def updateTaskStore (st : Store) (task_id status : String)
    (notes : Option String) (t : String) : Store × Resp :=
  let backlog := load_json st.backlogF DEFAULT_BACKLOG
  match tasksOf backlog with
  | none => (st, .serverError)
  | some xs =>
    match updateLoop xs task_id status notes t with
    | .raised => (st, .serverError)
    | .notFound => (st, .httpError 404 ("Task " ++ task_id ++ " not found"))
    | .found xs' =>
      let st1 : Store := { st with backlogF := .doc (setKey backlog "tasks" (.arr xs')) }
      if status = "completed" then
        match bumpMetric (load_json st1.stateF DEFAULT_STATE) "tasks_completed" with
        | none => (st1, .serverError)
        | some s' =>
          ({ st1 with stateF := .doc s' },
           .okMsg ("Task " ++ task_id ++ " updated to " ++ status))
      else
        (st1, .okMsg ("Task " ++ task_id ++ " updated to " ++ status))

/-- `/tools/add_task` at the store level. -/
def addTaskStore (st : Store) (title description priority t : String) :
    Store × Resp :=
  let backlog := load_json st.backlogF DEFAULT_BACKLOG
  match add_task backlog title description priority t with
  | none => (st, .serverError)
  | some (backlog', task_id) =>
      ({ st with backlogF := .doc backlog' },
       .okTaskId task_id ("Task added: " ++ title))

/-- `/tools/send_notification` at the store level: the metric bump is
persisted, the response is always success once the local steps complete,
and the optional forward is reported as an output. -/
def sendNotificationStore (st : Store) (message priority channel : String)
    (webhook : String) (t : String) (deliveryOk : Bool) :
    Store × Resp × Option WebhookPayload :=
  match send_notification (load_json st.stateF DEFAULT_STATE) message priority
      webhook t deliveryOk with
  | none => (st, .serverError, none)
  | some (s', fwd) =>
      ({ st with stateF := .doc s' }, .okMsg "Notification sent", fwd)

/-- Observer: the integer value of `state["metrics"][name]`, with the
`.get(name, 0)` default; `none` when the access would raise. -/
def metricInt (state : Doc) (name : String) : Option Int :=
  match getKey state "metrics" with
  | some (.obj m) =>
    match getKey m name with
    | none => some 0
    | some v => asPyInt v
  | _ => none

/-! ### Basic lemmas about documents -/

theorem getKey_setKey_self (d : Doc) (k : String) (v : JValue) :
    getKey (setKey d k v) k = some v := by
  induction d with
  | nil => simp [setKey, getKey]
  | cons p rest ih =>
    obtain ⟨k', v'⟩ := p
    by_cases h : k' = k <;> simp [setKey, getKey, h, ih]

theorem getKey_setKey_ne (d : Doc) (k k' : String) (v : JValue) (h : k' ≠ k) :
    getKey (setKey d k v) k' = getKey d k' := by
  induction d with
  | nil => simp [setKey, getKey, Ne.symm h]
  | cons p rest ih =>
    obtain ⟨k₀, v₀⟩ := p
    by_cases h₀ : k₀ = k
    · subst h₀
      simp [setKey, getKey, Ne.symm h]
    · simp [setKey, getKey, h₀, ih]

theorem keyTruthy_setKey_ne (d : Doc) (k k' : String) (v : JValue) (h : k' ≠ k) :
    keyTruthy (setKey d k v) k' = keyTruthy d k' := by
  simp [keyTruthy, getKey_setKey_ne d k k' v h]

theorem getIntD_setKey_ne (d : Doc) (k k' : String) (v : JValue) (n : Int)
    (h : k' ≠ k) :
    getIntD (setKey d k v) k' n = getIntD d k' n := by
  simp [getIntD, getKey_setKey_ne d k k' v h]

/-! ### `read_state` lemmas -/

/-- One `read_state` call, given a readable wake counter. -/
theorem read_state_eq (s : Doc) (t : String) (n : Int)
    (hn : getIntD s "wake_count" 0 = some n) :
    ∃ s', read_state s t = some s' ∧
      getKey s' "wake_count" = some (.num (n + 1)) ∧
      getKey s' "last_wake" = some (.str t) ∧
      getKey s' "created_at" =
        (if keyTruthy s "created_at" then getKey s "created_at"
         else some (.str t)) ∧
      (∀ k, k ≠ "wake_count" → k ≠ "last_wake" → k ≠ "created_at" →
        getKey s' k = getKey s k) := by
  unfold read_state
  rw [hn]
  set s1 := setKey s "wake_count" (.num (n + 1)) with hs1
  set s2 := setKey s1 "last_wake" (.str t) with hs2
  have hget_ca : getKey s2 "created_at" = getKey s "created_at" := by
    rw [hs2, getKey_setKey_ne _ _ _ _ (by decide), hs1,
      getKey_setKey_ne _ _ _ _ (by decide)]
  have htruthy : keyTruthy s2 "created_at" = keyTruthy s "created_at" := by
    simp [keyTruthy, hget_ca]
  have hwc : getKey s2 "wake_count" = some (.num (n + 1)) := by
    rw [hs2, getKey_setKey_ne _ _ _ _ (by decide), hs1, getKey_setKey_self]
  have hlw : getKey s2 "last_wake" = some (.str t) := by
    rw [hs2, getKey_setKey_self]
  have hframe : ∀ k, k ≠ "wake_count" → k ≠ "last_wake" →
      getKey s2 k = getKey s k := by
    intro k h1 h2
    rw [hs2, getKey_setKey_ne _ _ _ _ h2, hs1, getKey_setKey_ne _ _ _ _ h1]
  by_cases hca : keyTruthy s "created_at"
  · refine ⟨s2, ?_, hwc, hlw, ?_, ?_⟩
    · simp [htruthy, hca]
    · simp [hca, hget_ca]
    · intro k h1 h2 _; exact hframe k h1 h2
  · refine ⟨setKey s2 "created_at" (.str t), ?_, ?_, ?_, ?_, ?_⟩
    · simp [htruthy, hca]
    · rw [getKey_setKey_ne _ _ _ _ (by decide)]; exact hwc
    · rw [getKey_setKey_ne _ _ _ _ (by decide)]; exact hlw
    · simp [hca, getKey_setKey_self]
    · intro k h1 h2 h3
      rw [getKey_setKey_ne _ _ _ _ h3]; exact hframe k h1 h2

theorem keyTruthy_congr (d d' : Doc) (k : String)
    (h : getKey d' k = getKey d k) : keyTruthy d' k = keyTruthy d k := by
  simp [keyTruthy, h]

/-- Invariant for iterated `read_state`: with a readable counter and a
truthy `created_at`, a sequence of calls adds its length to the counter
and leaves `created_at` untouched. -/
theorem readStateSeq_invariant (ts : List String) (st : Store) (m : Int)
    (hm : getIntD (load_json st.stateF DEFAULT_STATE) "wake_count" 0 = some m)
    (hca : keyTruthy (load_json st.stateF DEFAULT_STATE) "created_at" = true) :
    getIntD (load_json (readStateSeq st ts).stateF DEFAULT_STATE) "wake_count" 0
      = some (m + ts.length) ∧
    getKey (load_json (readStateSeq st ts).stateF DEFAULT_STATE) "created_at"
      = getKey (load_json st.stateF DEFAULT_STATE) "created_at" := by
  induction ts generalizing st m with
  | nil => simpa [readStateSeq] using hm
  | cons t ts ih =>
    obtain ⟨s', hs', hwc, hlw, hca', hframe⟩ :=
      read_state_eq (load_json st.stateF DEFAULT_STATE) t m hm
    have hstep : (readStateStore st t).1 = { st with stateF := .doc s' } := by
      simp [readStateStore, hs']
    have hload : load_json (FileContent.doc s') DEFAULT_STATE = s' := rfl
    have hm' : getIntD s' "wake_count" 0 = some (m + 1) := by
      simp [getIntD, hwc, asPyInt]
    have hgetca : getKey s' "created_at"
        = getKey (load_json st.stateF DEFAULT_STATE) "created_at" := by
      rw [hca', if_pos hca]
    have hca'' : keyTruthy s' "created_at" = true := by
      rw [keyTruthy_congr _ s' _ hgetca]; exact hca
    obtain ⟨ih1, ih2⟩ := ih { st with stateF := .doc s' } (m + 1) hm' hca''
    constructor
    · rw [readStateSeq, hstep, ih1]
      congr 1
      simp
      omega
    · rw [readStateSeq, hstep, ih2, hload, hgetca]

/-- C1: for every sequence of `read_state` calls, each call increments the
persisted `wake_count` by exactly 1 (so `wake_count` strictly increases
across the sequence), sets `last_wake` to the current time, and sets
`created_at` to the current time only on the first call when it is
previously unset; `created_at` never changes on any later `read_state`
call. -/
theorem read_state_wake_spec (st : Store) (n : Int) (t : String)
    (ts : List String)
    (hn : getIntD (load_json st.stateF DEFAULT_STATE) "wake_count" 0 = some n)
    (ht : t ≠ "") :
    ∃ s₁, readStateStore st t = ({ st with stateF := .doc s₁ }, .okState s₁) ∧
      getKey s₁ "wake_count" = some (.num (n + 1)) ∧
      getKey s₁ "last_wake" = some (.str t) ∧
      getKey s₁ "created_at" =
        (if keyTruthy (load_json st.stateF DEFAULT_STATE) "created_at" then
          getKey (load_json st.stateF DEFAULT_STATE) "created_at"
         else some (.str t)) ∧
      getIntD (load_json (readStateSeq { st with stateF := .doc s₁ } ts).stateF
          DEFAULT_STATE) "wake_count" 0 = some (n + 1 + ts.length) ∧
      getKey (load_json (readStateSeq { st with stateF := .doc s₁ } ts).stateF
          DEFAULT_STATE) "created_at" = getKey s₁ "created_at" := by
  obtain ⟨s₁, hs₁, hwc, hlw, hca, hframe⟩ :=
    read_state_eq (load_json st.stateF DEFAULT_STATE) t n hn
  have hstore : readStateStore st t = ({ st with stateF := .doc s₁ }, .okState s₁) := by
    simp [readStateStore, hs₁]
  have hm' : getIntD s₁ "wake_count" 0 = some (n + 1) := by
    simp [getIntD, hwc, asPyInt]
  have htr : keyTruthy s₁ "created_at" = true := by
    by_cases hc : keyTruthy (load_json st.stateF DEFAULT_STATE) "created_at" = true
    · have hgc : getKey s₁ "created_at"
          = getKey (load_json st.stateF DEFAULT_STATE) "created_at" := by
        rw [hca, if_pos hc]
      rw [keyTruthy_congr (load_json st.stateF DEFAULT_STATE) s₁ "created_at" hgc]
      exact hc
    · have hgc : getKey s₁ "created_at" = some (.str t) := by
        rw [hca, if_neg hc]
      simp [keyTruthy, hgc, JValue.falsy, ht]
  obtain ⟨h1, h2⟩ :=
    readStateSeq_invariant ts { st with stateF := .doc s₁ } (n + 1) hm' htr
  exact ⟨s₁, hstore, hwc, hlw, hca, h1, h2⟩

/-- Witness for C1 at a fresh store and a three-call sequence. -/
theorem read_state_wake_spec_witness :
    (getIntD (load_json (Store.mk .missing .missing).stateF DEFAULT_STATE)
        "wake_count" 0 = some 0) ∧
    ("2026-10-12T00:00:01+00:00" ≠ "") ∧
    (∃ s₁, readStateStore (Store.mk .missing .missing)
          "2026-10-12T00:00:01+00:00"
        = ({ Store.mk .missing .missing with stateF := .doc s₁ }, .okState s₁) ∧
      getKey s₁ "wake_count" = some (.num (0 + 1)) ∧
      getKey s₁ "last_wake" = some (.str "2026-10-12T00:00:01+00:00") ∧
      getKey s₁ "created_at" =
        (if keyTruthy (load_json (Store.mk .missing .missing).stateF
            DEFAULT_STATE) "created_at" then
          getKey (load_json (Store.mk .missing .missing).stateF DEFAULT_STATE)
            "created_at"
         else some (.str "2026-10-12T00:00:01+00:00")) ∧
      getIntD (load_json (readStateSeq
          { Store.mk .missing .missing with stateF := .doc s₁ }
          ["2026-10-12T00:00:02+00:00", "2026-10-12T00:00:03+00:00"]).stateF
          DEFAULT_STATE) "wake_count" 0
        = some (0 + 1 + (["2026-10-12T00:00:02+00:00",
            "2026-10-12T00:00:03+00:00"] : List String).length) ∧
      getKey (load_json (readStateSeq
          { Store.mk .missing .missing with stateF := .doc s₁ }
          ["2026-10-12T00:00:02+00:00", "2026-10-12T00:00:03+00:00"]).stateF
          DEFAULT_STATE) "created_at" = getKey s₁ "created_at") :=
  ⟨rfl, by decide,
    read_state_wake_spec (Store.mk .missing .missing) 0
      "2026-10-12T00:00:01+00:00"
      ["2026-10-12T00:00:02+00:00", "2026-10-12T00:00:03+00:00"]
      rfl (by decide)⟩

/-- C2: `write_state` persists the caller-supplied document wholesale
(replace, not deep merge) except that the four server-owned fields
`version`, `wake_count`, `created_at`, `last_wake` are overwritten with
the values from the previously stored state; hence `write_state` with
`current_focus "X"` and a client-chosen `wake_count` followed by
`read_state` yields the caller's `current_focus` but a `wake_count`
derived from the server's own counter. -/
theorem write_state_spec (st : Store) (u : Doc) (n : Int) (t : String)
    (hn : getIntD (load_json st.stateF DEFAULT_STATE) "wake_count" 0 = some n) :
    writeStateStore st u
      = (Store.mk (.doc (write_state (load_json st.stateF DEFAULT_STATE) u))
           st.backlogF,
         .okMsg "State updated") ∧
    getKey (write_state (load_json st.stateF DEFAULT_STATE) u) "version"
      = some (getKeyD (load_json st.stateF DEFAULT_STATE) "version" (.str "1.0")) ∧
    getKey (write_state (load_json st.stateF DEFAULT_STATE) u) "wake_count"
      = some (getKeyD (load_json st.stateF DEFAULT_STATE) "wake_count" (.num 0)) ∧
    getKey (write_state (load_json st.stateF DEFAULT_STATE) u) "created_at"
      = some (getKeyD (load_json st.stateF DEFAULT_STATE) "created_at" .null) ∧
    getKey (write_state (load_json st.stateF DEFAULT_STATE) u) "last_wake"
      = some (getKeyD (load_json st.stateF DEFAULT_STATE) "last_wake" .null) ∧
    (∀ k, k ≠ "version" → k ≠ "wake_count" → k ≠ "created_at" →
      k ≠ "last_wake" →
      getKey (write_state (load_json st.stateF DEFAULT_STATE) u) k
        = getKey u k) ∧
    (∃ s', readStateStore
          (Store.mk (.doc (write_state (load_json st.stateF DEFAULT_STATE) u))
            st.backlogF) t
        = (Store.mk (.doc s') st.backlogF, .okState s') ∧
      getKey s' "current_focus" = getKey u "current_focus" ∧
      getKey s' "wake_count" = some (.num (n + 1))) := by
  set e := load_json st.stateF DEFAULT_STATE with he
  have hver : getKey (write_state e u) "version"
      = some (getKeyD e "version" (.str "1.0")) := by
    unfold write_state
    rw [getKey_setKey_ne _ _ _ _ (by decide), getKey_setKey_ne _ _ _ _ (by decide),
      getKey_setKey_ne _ _ _ _ (by decide), getKey_setKey_self]
  have hwc : getKey (write_state e u) "wake_count"
      = some (getKeyD e "wake_count" (.num 0)) := by
    unfold write_state
    rw [getKey_setKey_ne _ _ _ _ (by decide), getKey_setKey_ne _ _ _ _ (by decide),
      getKey_setKey_self]
  have hca : getKey (write_state e u) "created_at"
      = some (getKeyD e "created_at" .null) := by
    unfold write_state
    rw [getKey_setKey_ne _ _ _ _ (by decide), getKey_setKey_self]
  have hlw : getKey (write_state e u) "last_wake"
      = some (getKeyD e "last_wake" .null) := by
    unfold write_state
    rw [getKey_setKey_self]
  have hframe : ∀ k, k ≠ "version" → k ≠ "wake_count" → k ≠ "created_at" →
      k ≠ "last_wake" → getKey (write_state e u) k = getKey u k := by
    intro k h1 h2 h3 h4
    unfold write_state
    rw [getKey_setKey_ne _ _ _ _ h4, getKey_setKey_ne _ _ _ _ h3,
      getKey_setKey_ne _ _ _ _ h2, getKey_setKey_ne _ _ _ _ h1]
  have hwint : getIntD (write_state e u) "wake_count" 0 = some n := by
    rw [getIntD, hwc]
    rw [getIntD] at hn
    cases hge : getKey e "wake_count" with
    | none => rw [hge] at hn; simp at hn; simp [getKeyD, hge, asPyInt, hn]
    | some v => rw [hge] at hn; simp at hn; simp [getKeyD, hge, hn]
  obtain ⟨s', hs', hwc', hlw', hca', hframe'⟩ := read_state_eq (write_state e u) t n
    (by simpa using hwint)
  refine ⟨by simp [writeStateStore, he], hver, hwc, hca, hlw, hframe, s', ?_, ?_, hwc'⟩
  · simp [readStateStore, load_json, hs']
  · rw [ hframe' "current_focus" (by decide) (by decide) (by decide),
      hframe "current_focus" (by decide) (by decide) (by decide) (by decide)]

/-- Witness for C2: a client-supplied state with `current_focus "X"` and
`wake_count 9999` written over the default store, then read back. -/
theorem write_state_spec_witness :
    (getIntD DEFAULT_STATE "wake_count" 0 = some 0) ∧
    (writeStateStore (Store.mk .missing .missing)
        [("current_focus", .str "X"), ("wake_count", .num 9999)]
      = (Store.mk (.doc (write_state DEFAULT_STATE
            [("current_focus", .str "X"), ("wake_count", .num 9999)]))
           .missing,
         .okMsg "State updated") ∧
    getKey (write_state DEFAULT_STATE
        [("current_focus", .str "X"), ("wake_count", .num 9999)]) "version"
      = some (getKeyD DEFAULT_STATE "version" (.str "1.0")) ∧
    getKey (write_state DEFAULT_STATE
        [("current_focus", .str "X"), ("wake_count", .num 9999)]) "wake_count"
      = some (getKeyD DEFAULT_STATE "wake_count" (.num 0)) ∧
    getKey (write_state DEFAULT_STATE
        [("current_focus", .str "X"), ("wake_count", .num 9999)]) "created_at"
      = some (getKeyD DEFAULT_STATE "created_at" .null) ∧
    getKey (write_state DEFAULT_STATE
        [("current_focus", .str "X"), ("wake_count", .num 9999)]) "last_wake"
      = some (getKeyD DEFAULT_STATE "last_wake" .null) ∧
    (∀ k, k ≠ "version" → k ≠ "wake_count" → k ≠ "created_at" →
      k ≠ "last_wake" →
      getKey (write_state DEFAULT_STATE
          [("current_focus", .str "X"), ("wake_count", .num 9999)]) k
        = getKey [("current_focus", .str "X"), ("wake_count", .num 9999)] k) ∧
    (∃ s', readStateStore
          (Store.mk (.doc (write_state DEFAULT_STATE
              [("current_focus", .str "X"), ("wake_count", .num 9999)]))
            .missing)
          "2026-10-12T00:00:09+00:00"
        = (Store.mk (.doc s') .missing, .okState s') ∧
      getKey s' "current_focus"
        = getKey [("current_focus", .str "X"), ("wake_count", .num 9999)]
            "current_focus" ∧
      getKey s' "wake_count" = some (.num (0 + 1)))) :=
  ⟨rfl, write_state_spec (Store.mk .missing .missing)
    [("current_focus", .str "X"), ("wake_count", .num 9999)] 0
    "2026-10-12T00:00:09+00:00" rfl⟩

/-! ### Sorting lemmas for `read_backlog` -/

theorem taskLE_trans : ∀ a b c : Doc, taskLE a b → taskLE b c → taskLE a c := by
  intro a b c hab hbc
  simp only [taskLE, decide_eq_true_eq] at *
  omega

theorem taskLE_total : ∀ a b : Doc, taskLE a b || taskLE b a := by
  intro a b
  simp only [taskLE]
  rcases Nat.le_total (prKey a) (prKey b) with h | h <;> simp [h]

/-- Stability of the priority sort: tasks of any single priority keep
their original relative order. -/
theorem mergeSort_taskLE_filter (l : List Doc) (p : Nat) :
    (l.mergeSort taskLE).filter (fun t => prKey t == p)
      = l.filter (fun t => prKey t == p) := by
  have hsub : List.Sublist (l.filter (fun t => prKey t == p))
      (l.mergeSort taskLE) := by
    apply List.sublist_mergeSort taskLE_trans taskLE_total
    · apply List.pairwise_of_forall_mem_list
      intro a ha b hb
      have hpa := (List.mem_filter.mp ha).2
      have hpb := (List.mem_filter.mp hb).2
      simp only [beq_iff_eq] at hpa hpb
      simp [taskLE, hpa, hpb]
    · exact List.filter_sublist _
  have hsub2 : List.Sublist (l.filter (fun t => prKey t == p))
      ((l.mergeSort taskLE).filter (fun t => prKey t == p)) := by
    have h1 := List.Sublist.filter (fun t => prKey t == p) hsub
    rwa [List.filter_eq_self.mpr
      (fun a ha => (List.mem_filter.mp ha).2)] at h1
  have hperm : List.Perm ((l.mergeSort taskLE).filter (fun t => prKey t == p))
      (l.filter (fun t => prKey t == p)) :=
    (List.mergeSort_perm l taskLE).filter _
  exact (List.Sublist.eq_of_length hsub2 hperm.length_eq.symm).symm

/-- C3: `read_backlog` returns the tasks whose status equals the filter
(all tasks when the filter is `"all"`), sorted by priority under
`urgent < high < normal < low` with unrecognized or missing priorities
sorting as normal, stably with respect to insertion order among equal
priorities, together with the count of the returned tasks; the stored
backlog document is not mutated. In particular
`add_task("t1","d1","high")` then `add_task("t2","d2","urgent")` then
`read_backlog("all")` returns `[t2, t1]`. -/
theorem read_backlog_spec (st : Store) (f : String) (xs : List JValue)
    (tasks : List Doc)
    (h1 : tasksOf (load_json st.backlogF DEFAULT_BACKLOG) = some xs)
    (h2 : asObjs xs = some tasks)
    (hh : (if f = "all" then tasks
           else tasks.filter (fun t => statusMatches t f)).all hashablePriority
          = true) :
    readBacklogStore st f
      = (st, .okTasks
          ((if f = "all" then tasks
            else tasks.filter (fun t => statusMatches t f)).mergeSort taskLE)
          ((if f = "all" then tasks
            else tasks.filter (fun t => statusMatches t f)).mergeSort
              taskLE).length) ∧
    List.Pairwise (fun a b => prKey a ≤ prKey b)
      ((if f = "all" then tasks
        else tasks.filter (fun t => statusMatches t f)).mergeSort taskLE) ∧
    (∀ p : Nat,
      ((if f = "all" then tasks
        else tasks.filter (fun t => statusMatches t f)).mergeSort
          taskLE).filter (fun t => prKey t == p)
        = (if f = "all" then tasks
           else tasks.filter (fun t => statusMatches t f)).filter
            (fun t => prKey t == p)) ∧
    ((if f = "all" then tasks
      else tasks.filter (fun t => statusMatches t f)).mergeSort taskLE).length
      = (if f = "all" then tasks
         else tasks.filter (fun t => statusMatches t f)).length ∧
    (∀ tc1 tc2 : String,
      add_task DEFAULT_BACKLOG "t1" "d1" "high" tc1
        = some ([("tasks",
            .arr [.obj (newTaskDoc "task-001" "t1" "d1" "high" tc1)])],
            "task-001") ∧
      add_task [("tasks",
            .arr [.obj (newTaskDoc "task-001" "t1" "d1" "high" tc1)])]
          "t2" "d2" "urgent" tc2
        = some ([("tasks",
            .arr [.obj (newTaskDoc "task-001" "t1" "d1" "high" tc1),
                  .obj (newTaskDoc "task-002" "t2" "d2" "urgent" tc2)])],
            "task-002") ∧
      read_backlog [("tasks",
          .arr [.obj (newTaskDoc "task-001" "t1" "d1" "high" tc1),
                .obj (newTaskDoc "task-002" "t2" "d2" "urgent" tc2)])] "all"
        = some ([newTaskDoc "task-002" "t2" "d2" "urgent" tc2,
                 newTaskDoc "task-001" "t1" "d1" "high" tc1], 2)) := by
  refine ⟨?_, ?_, ?_, ?_, ?_⟩
  · simp [readBacklogStore, read_backlog, h1, h2, hh]
  · exact (List.sorted_mergeSort taskLE_trans taskLE_total _).imp
      (fun h => by simpa [taskLE] using h)
  · intro p; exact mergeSort_taskLE_filter _ p
  · exact (List.mergeSort_perm _ taskLE).length_eq
  · intro tc1 tc2
    refine ⟨rfl, ?_, ?_⟩
    · unfold add_task
      norm_num [tasksOf, getKey, asObjs, newTaskDoc, setKey, pad3]
      rfl
    · simp [read_backlog, tasksOf, asObjs, getKey, newTaskDoc, hashablePriority,
        List.mergeSort, List.splitInTwo, List.merge, taskLE, prKey,
        priority_order]

/-- Witness for C3: a backlog with one pending low-priority task and one
completed urgent task, read back with the `"pending"` filter. -/
theorem read_backlog_spec_witness :
    (tasksOf (load_json (Store.mk .missing (.doc [("tasks",
        .arr [.obj [("id", .str "a"), ("status", .str "pending"),
                    ("priority", .str "low")],
              .obj [("id", .str "b"), ("status", .str "completed"),
                    ("priority", .str "urgent")]])])).backlogF
        DEFAULT_BACKLOG)
      = some [.obj [("id", .str "a"), ("status", .str "pending"),
                    ("priority", .str "low")],
              .obj [("id", .str "b"), ("status", .str "completed"),
                    ("priority", .str "urgent")]]) ∧
    (asObjs [.obj [("id", .str "a"), ("status", .str "pending"),
                   ("priority", .str "low")],
             .obj [("id", .str "b"), ("status", .str "completed"),
                   ("priority", .str "urgent")]]
      = some [[("id", .str "a"), ("status", .str "pending"),
               ("priority", .str "low")],
              [("id", .str "b"), ("status", .str "completed"),
               ("priority", .str "urgent")]]) ∧
    ((if "pending" = "all" then
        [[("id", JValue.str "a"), ("status", JValue.str "pending"),
          ("priority", JValue.str "low")],
         [("id", JValue.str "b"), ("status", JValue.str "completed"),
          ("priority", JValue.str "urgent")]]
      else
        [[("id", JValue.str "a"), ("status", JValue.str "pending"),
          ("priority", JValue.str "low")],
         [("id", JValue.str "b"), ("status", JValue.str "completed"),
          ("priority", JValue.str "urgent")]].filter
          (fun t => statusMatches t "pending")).all hashablePriority
      = true) ∧
    readBacklogStore (Store.mk .missing (.doc [("tasks",
        .arr [.obj [("id", .str "a"), ("status", .str "pending"),
                    ("priority", .str "low")],
              .obj [("id", .str "b"), ("status", .str "completed"),
                    ("priority", .str "urgent")]])])) "pending"
      = (Store.mk .missing (.doc [("tasks",
          .arr [.obj [("id", .str "a"), ("status", .str "pending"),
                      ("priority", .str "low")],
                .obj [("id", .str "b"), ("status", .str "completed"),
                      ("priority", .str "urgent")]])]),
         .okTasks
          ((if "pending" = "all" then
              [[("id", JValue.str "a"), ("status", JValue.str "pending"),
                ("priority", JValue.str "low")],
               [("id", JValue.str "b"), ("status", JValue.str "completed"),
                ("priority", JValue.str "urgent")]]
            else
              [[("id", JValue.str "a"), ("status", JValue.str "pending"),
                ("priority", JValue.str "low")],
               [("id", JValue.str "b"), ("status", JValue.str "completed"),
                ("priority", JValue.str "urgent")]].filter
                (fun t => statusMatches t "pending")).mergeSort taskLE)
          ((if "pending" = "all" then
              [[("id", JValue.str "a"), ("status", JValue.str "pending"),
                ("priority", JValue.str "low")],
               [("id", JValue.str "b"), ("status", JValue.str "completed"),
                ("priority", JValue.str "urgent")]]
            else
              [[("id", JValue.str "a"), ("status", JValue.str "pending"),
                ("priority", JValue.str "low")],
               [("id", JValue.str "b"), ("status", JValue.str "completed"),
                ("priority", JValue.str "urgent")]].filter
                (fun t => statusMatches t "pending")).mergeSort
            taskLE).length) :=
  ⟨rfl, rfl, rfl,
    (read_backlog_spec (Store.mk .missing (.doc [("tasks",
        .arr [.obj [("id", .str "a"), ("status", .str "pending"),
                    ("priority", .str "low")],
              .obj [("id", .str "b"), ("status", .str "completed"),
                    ("priority", .str "urgent")]])])) "pending" _ _
      rfl rfl rfl).1⟩

/-! ### `update_task` lemmas -/

theorem idMatches_eq_false (task : Doc) (tid : String)
    (h : getKey task "id" ≠ some (.str tid)) : idMatches task tid = false := by
  unfold idMatches
  cases hg : getKey task "id" with
  | none => rfl
  | some v =>
    cases v with
    | null => rfl
    | bool b => rfl
    | num n => rfl
    | str s =>
      by_cases hs : s = tid
      · subst hs; exact absurd hg h
      · simp [hs]
    | arr xs => rfl
    | obj fs => rfl

theorem updateLoop_notFound (xs : List JValue) (task_id status : String)
    (notes : Option String) (t : String)
    (h : ∀ x ∈ xs, ∃ fs, x = JValue.obj fs ∧ idMatches fs task_id = false) :
    updateLoop xs task_id status notes t = .notFound := by
  induction xs with
  | nil => rfl
  | cons x rest ih =>
    obtain ⟨fs, rfl, hid⟩ := h _ (List.mem_cons_self _ _)
    have hrest := ih (fun x hx => h x (List.mem_cons_of_mem _ hx))
    simp [updateLoop, hid, hrest]

theorem updateLoop_found (pre : List Doc) (tk : Doc) (post : List JValue)
    (task_id status : String) (notes : Option String) (t : String)
    (hpre : ∀ p ∈ pre, idMatches p task_id = false)
    (htk : idMatches tk task_id = true) :
    updateLoop (pre.map .obj ++ .obj tk :: post) task_id status notes t
      = .found (pre.map .obj
          ++ .obj (applyTaskUpdate tk status notes t) :: post) := by
  induction pre with
  | nil => simp [updateLoop, htk]
  | cons p rest ih =>
    have hp := hpre p (List.mem_cons_self _ _)
    have hrest := ih (fun q hq => hpre q (List.mem_cons_of_mem _ hq))
    simp only [List.map_cons, List.cons_append]
    rw [updateLoop, if_neg (by simp [hp]), hrest]

theorem applyTaskUpdate_status (tk : Doc) (status : String)
    (notes : Option String) (t : String) :
    getKey (applyTaskUpdate tk status notes t) "status" = some (.str status) := by
  rcases notes with _ | s
  · unfold applyTaskUpdate
    by_cases hc : status = "completed" <;>
      simp [hc, getKey_setKey_self, getKey_setKey_ne]
  · unfold applyTaskUpdate
    by_cases hc : status = "completed" <;> by_cases hs : s = "" <;>
      simp [hc, hs, getKey_setKey_self, getKey_setKey_ne]

theorem applyTaskUpdate_updated_at (tk : Doc) (status : String)
    (notes : Option String) (t : String) :
    getKey (applyTaskUpdate tk status notes t) "updated_at"
      = some (.str t) := by
  rcases notes with _ | s
  · unfold applyTaskUpdate
    by_cases hc : status = "completed" <;>
      simp [hc, getKey_setKey_self, getKey_setKey_ne]
  · unfold applyTaskUpdate
    by_cases hc : status = "completed" <;> by_cases hs : s = "" <;>
      simp [hc, hs, getKey_setKey_self, getKey_setKey_ne]

theorem applyTaskUpdate_completed_at (tk : Doc)
    (notes : Option String) (t : String) :
    getKey (applyTaskUpdate tk "completed" notes t) "completed_at"
      = some (.str t) := by
  rcases notes with _ | s
  · unfold applyTaskUpdate
    simp [getKey_setKey_self]
  · unfold applyTaskUpdate
    by_cases hs : s = "" <;> simp [hs, getKey_setKey_self]

theorem applyTaskUpdate_completed_at_ne (tk : Doc) (status : String)
    (notes : Option String) (t : String) (h : status ≠ "completed") :
    getKey (applyTaskUpdate tk status notes t) "completed_at"
      = getKey tk "completed_at" := by
  rcases notes with _ | s
  · unfold applyTaskUpdate
    simp [h, getKey_setKey_ne]
  · unfold applyTaskUpdate
    by_cases hs : s = "" <;> simp [h, hs, getKey_setKey_ne]

theorem applyTaskUpdate_id (tk : Doc) (status : String)
    (notes : Option String) (t : String) :
    getKey (applyTaskUpdate tk status notes t) "id" = getKey tk "id" := by
  rcases notes with _ | s
  · unfold applyTaskUpdate
    by_cases hc : status = "completed" <;> simp [hc, getKey_setKey_ne]
  · unfold applyTaskUpdate
    by_cases hc : status = "completed" <;> by_cases hs : s = "" <;>
      simp [hc, hs, getKey_setKey_ne]

theorem applyTaskUpdate_notes_falsy (tk : Doc) (status : String)
    (notes : Option String) (t : String)
    (h : notes = none ∨ notes = some "") :
    getKey (applyTaskUpdate tk status notes t) "notes"
      = getKey tk "notes" := by
  rcases h with rfl | rfl
  · unfold applyTaskUpdate
    by_cases hc : status = "completed" <;> simp [hc, getKey_setKey_ne]
  · unfold applyTaskUpdate
    by_cases hc : status = "completed" <;> simp [hc, getKey_setKey_ne]

/-- The metric bump succeeds on a well-formed metrics object and adds 1. -/
theorem bumpMetric_eq (state : Doc) (name : String) (k : Int)
    (h : metricInt state name = some k) :
    ∃ s', bumpMetric state name = some s' ∧
      metricInt s' name = some (k + 1) ∧
      (∀ k', k' ≠ "metrics" → getKey s' k' = getKey state k') := by
  unfold metricInt at h
  cases hm : getKey state "metrics" with
  | none => rw [hm] at h; simp at h
  | some mv =>
    rw [hm] at h
    cases mv with
    | null => simp at h
    | bool b => simp at h
    | num n => simp at h
    | str s => simp at h
    | arr xs => simp at h
    | obj m =>
      simp only at h
      cases hv : getKey m name with
      | none =>
        rw [hv] at h
        simp only [Option.some.injEq] at h
        refine ⟨setKey state "metrics" (.obj (setKey m name (.num 1))),
          ?_, ?_, ?_⟩
        · simp [bumpMetric, hm, hv]
        · simp [metricInt, getKey_setKey_self, asPyInt, ← h]
        · intro k' hk'
          exact getKey_setKey_ne _ _ _ _ hk'
      | some v =>
        rw [hv] at h
        simp only at h
        refine ⟨setKey state "metrics" (.obj (setKey m name (.num (k + 1)))),
          ?_, ?_, ?_⟩
        · simp [bumpMetric, hm, hv, h]
        · simp [metricInt, getKey_setKey_self, asPyInt]
        · intro k' hk'
          exact getKey_setKey_ne _ _ _ _ hk'

/-- C4: for every `task_id` matching no task in the stored backlog,
`update_task` fails with NotFound (HTTP 404) and leaves both the stored
backlog document and the state document completely unchanged — no write
is performed on the error path. -/
theorem update_task_notfound_spec (st : Store) (task_id status : String)
    (notes : Option String) (t : String) (xs : List JValue)
    (h1 : tasksOf (load_json st.backlogF DEFAULT_BACKLOG) = some xs)
    (h2 : ∀ x ∈ xs, ∃ fs, x = JValue.obj fs ∧
      getKey fs "id" ≠ some (.str task_id)) :
    updateTaskStore st task_id status notes t
      = (st, .httpError 404 ("Task " ++ task_id ++ " not found")) := by
  have hloop : updateLoop xs task_id status notes t = .notFound :=
    updateLoop_notFound xs task_id status notes t (fun x hx => by
      obtain ⟨fs, rfl, hid⟩ := h2 x hx
      exact ⟨fs, rfl, idMatches_eq_false fs task_id hid⟩)
  simp [updateTaskStore, h1, hloop]

/-- Witness for C4: a one-task backlog queried with an unknown id. -/
theorem update_task_notfound_spec_witness :
    (tasksOf (load_json (Store.mk .missing (.doc [("tasks", .arr
        [.obj [("id", .str "task-001"), ("status", .str "pending")]])])).backlogF
        DEFAULT_BACKLOG)
      = some [.obj [("id", .str "task-001"), ("status", .str "pending")]]) ∧
    (∀ x ∈ [JValue.obj [("id", JValue.str "task-001"),
        ("status", JValue.str "pending")]],
      ∃ fs, x = JValue.obj fs ∧
        getKey fs "id" ≠ some (.str "task-999")) ∧
    updateTaskStore (Store.mk .missing (.doc [("tasks", .arr
        [.obj [("id", .str "task-001"), ("status", .str "pending")]])]))
        "task-999" "completed" none "2026-10-12T00:01:00+00:00"
      = (Store.mk .missing (.doc [("tasks", .arr
          [.obj [("id", .str "task-001"), ("status", .str "pending")]])]),
         .httpError 404 ("Task " ++ "task-999" ++ " not found")) := by
  have h2 : ∀ x ∈ [JValue.obj [("id", JValue.str "task-001"),
      ("status", JValue.str "pending")]],
      ∃ fs, x = JValue.obj fs ∧
        getKey fs "id" ≠ some (.str "task-999") := by
    intro x hx
    simp only [List.mem_singleton] at hx
    subst hx
    exact ⟨_, rfl, by simp [getKey]⟩
  exact ⟨rfl, h2,
    update_task_notfound_spec (Store.mk .missing (.doc [("tasks", .arr
        [.obj [("id", .str "task-001"), ("status", .str "pending")]])]))
      "task-999" "completed" none "2026-10-12T00:01:00+00:00" _ rfl h2⟩

/-- One successful `update_task(id, "completed")` call on a store whose
backlog contains the task (first match) and whose state has a
well-formed `tasks_completed` counter. -/
theorem update_task_completed_step (st : Store) (task_id t : String)
    (pre : List Doc) (tk : Doc) (post : List JValue) (k : Int)
    (h1 : tasksOf (load_json st.backlogF DEFAULT_BACKLOG)
       = some (pre.map .obj ++ .obj tk :: post))
    (hpre : ∀ p ∈ pre, getKey p "id" ≠ some (.str task_id))
    (htk : getKey tk "id" = some (.str task_id))
    (hmet : metricInt (load_json st.stateF DEFAULT_STATE) "tasks_completed"
      = some k) :
    ∃ st₁, updateTaskStore st task_id "completed" none t
      = (st₁, .okMsg ("Task " ++ task_id ++ " updated to " ++ "completed")) ∧
      tasksOf (load_json st₁.backlogF DEFAULT_BACKLOG)
        = some (pre.map .obj
            ++ .obj (applyTaskUpdate tk "completed" none t) :: post) ∧
      metricInt (load_json st₁.stateF DEFAULT_STATE) "tasks_completed"
        = some (k + 1) := by
  have hloop := updateLoop_found pre tk post task_id "completed" none t
    (fun p hp => idMatches_eq_false p task_id (hpre p hp))
    (by simp [idMatches, htk])
  obtain ⟨s', hbump, hmet', hframe⟩ := bumpMetric_eq _ "tasks_completed" k hmet
  refine ⟨Store.mk (.doc s')
      (.doc (setKey (load_json st.backlogF DEFAULT_BACKLOG) "tasks"
        (.arr (pre.map .obj
          ++ .obj (applyTaskUpdate tk "completed" none t) :: post)))),
    ?_, ?_, ?_⟩
  · simp [updateTaskStore, h1, hloop, hbump]
  · simp [tasksOf, load_json, getKey_setKey_self]
  · simpa [load_json] using hmet'

/-- C5: completing a task present in the backlog succeeds, sets its
status to completed, sets `updated_at` and a non-null `completed_at` to
the current time, and increments `metrics.tasks_completed` by exactly 1;
a second identical call on the already-completed task still succeeds and
increments `metrics.tasks_completed` again. -/
theorem update_task_completed_spec (st : Store) (task_id t₁ t₂ : String)
    (pre : List Doc) (tk : Doc) (post : List JValue) (k : Int)
    (h1 : tasksOf (load_json st.backlogF DEFAULT_BACKLOG)
       = some (pre.map .obj ++ .obj tk :: post))
    (hpre : ∀ p ∈ pre, getKey p "id" ≠ some (.str task_id))
    (htk : getKey tk "id" = some (.str task_id))
    (hmet : metricInt (load_json st.stateF DEFAULT_STATE) "tasks_completed"
      = some k) :
    ∃ st₁ st₂, updateTaskStore st task_id "completed" none t₁
      = (st₁, .okMsg ("Task " ++ task_id ++ " updated to " ++ "completed")) ∧
      tasksOf (load_json st₁.backlogF DEFAULT_BACKLOG)
        = some (pre.map .obj
            ++ .obj (applyTaskUpdate tk "completed" none t₁) :: post) ∧
      getKey (applyTaskUpdate tk "completed" none t₁) "status"
        = some (.str "completed") ∧
      getKey (applyTaskUpdate tk "completed" none t₁) "updated_at"
        = some (.str t₁) ∧
      getKey (applyTaskUpdate tk "completed" none t₁) "completed_at"
        = some (.str t₁) ∧
      JValue.str t₁ ≠ JValue.null ∧
      metricInt (load_json st₁.stateF DEFAULT_STATE) "tasks_completed"
        = some (k + 1) ∧
      updateTaskStore st₁ task_id "completed" none t₂
        = (st₂, .okMsg ("Task " ++ task_id ++ " updated to " ++ "completed")) ∧
      metricInt (load_json st₂.stateF DEFAULT_STATE) "tasks_completed"
        = some (k + 1 + 1) := by
  obtain ⟨st₁, hrun₁, htasks₁, hmet₁⟩ :=
    update_task_completed_step st task_id t₁ pre tk post k h1 hpre htk hmet
  obtain ⟨st₂, hrun₂, htasks₂, hmet₂⟩ :=
    update_task_completed_step st₁ task_id t₂ pre
      (applyTaskUpdate tk "completed" none t₁) post (k + 1) htasks₁ hpre
      (by rw [applyTaskUpdate_id]; exact htk) hmet₁
  exact ⟨st₁, st₂, hrun₁, htasks₁,
    applyTaskUpdate_status tk "completed" none t₁,
    applyTaskUpdate_updated_at tk "completed" none t₁,
    applyTaskUpdate_completed_at tk none t₁,
    fun h => JValue.noConfusion h,
    hmet₁, hrun₂, hmet₂⟩

/-- Witness for C5: completing the single pending task of a one-task
backlog over the default state. -/
theorem update_task_completed_spec_witness :
    (tasksOf (load_json (Store.mk .missing (.doc [("tasks", .arr
        [.obj [("id", .str "task-001"), ("status", .str "pending")]])])).backlogF
        DEFAULT_BACKLOG)
      = some (([] : List Doc).map .obj
          ++ .obj [("id", .str "task-001"), ("status", .str "pending")]
            :: [])) ∧
    (getKey [("id", JValue.str "task-001"), ("status", JValue.str "pending")]
        "id" = some (.str "task-001")) ∧
    (metricInt (load_json (Store.mk .missing (.doc [("tasks", .arr
        [.obj [("id", .str "task-001"), ("status", .str "pending")]])])).stateF
        DEFAULT_STATE) "tasks_completed" = some 0) ∧
    (∃ st₁ st₂, updateTaskStore (Store.mk .missing (.doc [("tasks", .arr
          [.obj [("id", .str "task-001"), ("status", .str "pending")]])]))
          "task-001" "completed" none "2026-10-12T00:02:00+00:00"
        = (st₁, .okMsg ("Task " ++ "task-001" ++ " updated to "
            ++ "completed")) ∧
      tasksOf (load_json st₁.backlogF DEFAULT_BACKLOG)
        = some (([] : List Doc).map .obj
            ++ .obj (applyTaskUpdate
              [("id", .str "task-001"), ("status", .str "pending")]
              "completed" none "2026-10-12T00:02:00+00:00") :: []) ∧
      getKey (applyTaskUpdate
          [("id", .str "task-001"), ("status", .str "pending")]
          "completed" none "2026-10-12T00:02:00+00:00") "status"
        = some (.str "completed") ∧
      getKey (applyTaskUpdate
          [("id", .str "task-001"), ("status", .str "pending")]
          "completed" none "2026-10-12T00:02:00+00:00") "updated_at"
        = some (.str "2026-10-12T00:02:00+00:00") ∧
      getKey (applyTaskUpdate
          [("id", .str "task-001"), ("status", .str "pending")]
          "completed" none "2026-10-12T00:02:00+00:00") "completed_at"
        = some (.str "2026-10-12T00:02:00+00:00") ∧
      JValue.str "2026-10-12T00:02:00+00:00" ≠ JValue.null ∧
      metricInt (load_json st₁.stateF DEFAULT_STATE) "tasks_completed"
        = some (0 + 1) ∧
      updateTaskStore st₁ "task-001" "completed" none
          "2026-10-12T00:03:00+00:00"
        = (st₂, .okMsg ("Task " ++ "task-001" ++ " updated to "
            ++ "completed")) ∧
      metricInt (load_json st₂.stateF DEFAULT_STATE) "tasks_completed"
        = some (0 + 1 + 1)) :=
  ⟨rfl, rfl, rfl,
    update_task_completed_spec (Store.mk .missing (.doc [("tasks", .arr
        [.obj [("id", .str "task-001"), ("status", .str "pending")]])]))
      "task-001" "2026-10-12T00:02:00+00:00" "2026-10-12T00:03:00+00:00"
      [] [("id", .str "task-001"), ("status", .str "pending")] [] 0
      rfl (by simp) rfl rfl⟩

/-- C10: `update_task` with an absent or empty-string `notes` argument
leaves the task's stored `notes` field unchanged (the field is
overwritten only for a truthy, non-empty notes string), while `status`
and `updated_at` are still updated and the mutated task is persisted. -/
theorem update_task_notes_spec (st : Store) (task_id status t : String)
    (notes : Option String) (pre : List Doc) (tk : Doc) (post : List JValue)
    (h1 : tasksOf (load_json st.backlogF DEFAULT_BACKLOG)
       = some (pre.map .obj ++ .obj tk :: post))
    (hpre : ∀ p ∈ pre, getKey p "id" ≠ some (.str task_id))
    (htk : getKey tk "id" = some (.str task_id))
    (hnotes : notes = none ∨ notes = some "") :
    ∃ st₁ r, updateTaskStore st task_id status notes t = (st₁, r) ∧
      tasksOf (load_json st₁.backlogF DEFAULT_BACKLOG)
        = some (pre.map .obj
            ++ .obj (applyTaskUpdate tk status notes t) :: post) ∧
      getKey (applyTaskUpdate tk status notes t) "notes"
        = getKey tk "notes" ∧
      getKey (applyTaskUpdate tk status notes t) "status"
        = some (.str status) ∧
      getKey (applyTaskUpdate tk status notes t) "updated_at"
        = some (.str t) := by
  have hloop := updateLoop_found pre tk post task_id status notes t
    (fun p hp => idMatches_eq_false p task_id (hpre p hp))
    (by simp [idMatches, htk])
  have hback : tasksOf (load_json (FileContent.doc
      (setKey (load_json st.backlogF DEFAULT_BACKLOG) "tasks"
        (.arr (pre.map .obj
          ++ .obj (applyTaskUpdate tk status notes t) :: post))))
      DEFAULT_BACKLOG)
      = some (pre.map .obj
          ++ .obj (applyTaskUpdate tk status notes t) :: post) := by
    simp [tasksOf, load_json, getKey_setKey_self]
  by_cases hs : status = "completed"
  · subst hs
    cases hbm : bumpMetric (load_json st.stateF DEFAULT_STATE)
        "tasks_completed" with
    | none =>
      refine ⟨Store.mk st.stateF (.doc (setKey
          (load_json st.backlogF DEFAULT_BACKLOG) "tasks"
          (.arr (pre.map .obj
            ++ .obj (applyTaskUpdate tk "completed" notes t) :: post)))),
        .serverError, ?_, hback,
        applyTaskUpdate_notes_falsy _ _ _ _ hnotes,
        applyTaskUpdate_status _ _ _ _, applyTaskUpdate_updated_at _ _ _ _⟩
      simp [updateTaskStore, h1, hloop, hbm]
    | some s' =>
      refine ⟨Store.mk (.doc s') (.doc (setKey
          (load_json st.backlogF DEFAULT_BACKLOG) "tasks"
          (.arr (pre.map .obj
            ++ .obj (applyTaskUpdate tk "completed" notes t) :: post)))),
        .okMsg ("Task " ++ task_id ++ " updated to " ++ "completed"), ?_,
        hback, applyTaskUpdate_notes_falsy _ _ _ _ hnotes,
        applyTaskUpdate_status _ _ _ _, applyTaskUpdate_updated_at _ _ _ _⟩
      simp [updateTaskStore, h1, hloop, hbm]
  · refine ⟨Store.mk st.stateF (.doc (setKey
        (load_json st.backlogF DEFAULT_BACKLOG) "tasks"
        (.arr (pre.map .obj
          ++ .obj (applyTaskUpdate tk status notes t) :: post)))),
      .okMsg ("Task " ++ task_id ++ " updated to " ++ status), ?_, hback,
      applyTaskUpdate_notes_falsy _ _ _ _ hnotes,
      applyTaskUpdate_status _ _ _ _, applyTaskUpdate_updated_at _ _ _ _⟩
    simp [updateTaskStore, h1, hloop, hs]

/-- Witness for C10: an in-progress update with empty notes on a task
that already carries notes. -/
theorem update_task_notes_spec_witness :
    (tasksOf (load_json (Store.mk .missing (.doc [("tasks", .arr
        [.obj [("id", .str "task-001"), ("status", .str "pending"),
               ("notes", .str "keep me")]])])).backlogF DEFAULT_BACKLOG)
      = some (([] : List Doc).map .obj
          ++ .obj [("id", .str "task-001"), ("status", .str "pending"),
                   ("notes", .str "keep me")] :: [])) ∧
    (getKey [("id", JValue.str "task-001"), ("status", JValue.str "pending"),
        ("notes", JValue.str "keep me")] "id" = some (.str "task-001")) ∧
    ((some "" : Option String) = none ∨ (some "" : Option String) = some "") ∧
    (∃ st₁ r, updateTaskStore (Store.mk .missing (.doc [("tasks", .arr
          [.obj [("id", .str "task-001"), ("status", .str "pending"),
                 ("notes", .str "keep me")]])]))
          "task-001" "in_progress" (some "") "2026-10-12T00:04:00+00:00"
        = (st₁, r) ∧
      tasksOf (load_json st₁.backlogF DEFAULT_BACKLOG)
        = some (([] : List Doc).map .obj
            ++ .obj (applyTaskUpdate
              [("id", .str "task-001"), ("status", .str "pending"),
               ("notes", .str "keep me")]
              "in_progress" (some "") "2026-10-12T00:04:00+00:00") :: []) ∧
      getKey (applyTaskUpdate
          [("id", .str "task-001"), ("status", .str "pending"),
           ("notes", .str "keep me")]
          "in_progress" (some "") "2026-10-12T00:04:00+00:00") "notes"
        = getKey [("id", JValue.str "task-001"),
            ("status", JValue.str "pending"),
            ("notes", JValue.str "keep me")] "notes" ∧
      getKey (applyTaskUpdate
          [("id", .str "task-001"), ("status", .str "pending"),
           ("notes", .str "keep me")]
          "in_progress" (some "") "2026-10-12T00:04:00+00:00") "status"
        = some (.str "in_progress") ∧
      getKey (applyTaskUpdate
          [("id", .str "task-001"), ("status", .str "pending"),
           ("notes", .str "keep me")]
          "in_progress" (some "") "2026-10-12T00:04:00+00:00") "updated_at"
        = some (.str "2026-10-12T00:04:00+00:00")) :=
  ⟨rfl, rfl, Or.inr rfl,
    update_task_notes_spec (Store.mk .missing (.doc [("tasks", .arr
        [.obj [("id", .str "task-001"), ("status", .str "pending"),
               ("notes", .str "keep me")]])]))
      "task-001" "in_progress" "2026-10-12T00:04:00+00:00" (some "")
      [] [("id", .str "task-001"), ("status", .str "pending"),
          ("notes", .str "keep me")] []
      rfl (by simp) rfl (Or.inr rfl)⟩

/-- Counterexample to C6 as stated: a task already completed at
`00:05:00` is re-completed at `00:06:00`, and its `completed_at` is
overwritten to the later time — so `completed_at` is not set exactly
once and is overwritten by a later operation. -/
theorem completed_at_overwrite_counterexample :
    getKey [("id", JValue.str "task-001"),
        ("status", JValue.str "completed"),
        ("completed_at", JValue.str "2026-10-12T00:05:00+00:00")]
        "completed_at"
      = some (.str "2026-10-12T00:05:00+00:00") ∧
    updateTaskStore (Store.mk .missing (.doc [("tasks", .arr
        [.obj [("id", .str "task-001"), ("status", .str "completed"),
               ("completed_at", .str "2026-10-12T00:05:00+00:00")]])]))
        "task-001" "completed" none "2026-10-12T00:06:00+00:00"
      = (Store.mk
          (.doc [("version", .str "1.0"), ("wake_count", .num 0),
            ("created_at", .null), ("last_wake", .null),
            ("current_focus", .str "Initial setup"),
            ("active_tasks", .arr []),
            ("capabilities", .obj
              [("read_state", .bool true), ("write_state", .bool true),
               ("read_backlog", .bool true), ("update_task", .bool true),
               ("log_accomplishment", .bool true),
               ("send_notification", .bool true)]),
            ("metrics", .obj
              [("total_accomplishments", .num 0),
               ("tasks_completed", .num 1),
               ("notifications_sent", .num 0)])])
          (.doc [("tasks", .arr
            [.obj [("id", .str "task-001"), ("status", .str "completed"),
                   ("completed_at", .str "2026-10-12T00:06:00+00:00"),
                   ("updated_at", .str "2026-10-12T00:06:00+00:00")]])]),
         .okMsg "Task task-001 updated to completed") ∧
    JValue.str "2026-10-12T00:06:00+00:00"
      ≠ JValue.str "2026-10-12T00:05:00+00:00" := by
  refine ⟨rfl, rfl, ?_⟩
  simp

/-- C6 amended: `id` is never modified by `update_task`; `completed_at`
is overwritten to the current time on every update whose new status is
`completed` (including re-completions of an already-completed task), is
left unchanged by updates to any other status, and is never cleared (the
written value is a timestamp string, never null); surrounding tasks are
untouched. -/
theorem task_id_completed_at_amended (st : Store)
    (task_id status t : String) (notes : Option String)
    (pre : List Doc) (tk : Doc) (post : List JValue)
    (h1 : tasksOf (load_json st.backlogF DEFAULT_BACKLOG)
       = some (pre.map .obj ++ .obj tk :: post))
    (hpre : ∀ p ∈ pre, getKey p "id" ≠ some (.str task_id))
    (htk : getKey tk "id" = some (.str task_id)) :
    ∃ st₁ r, updateTaskStore st task_id status notes t = (st₁, r) ∧
      tasksOf (load_json st₁.backlogF DEFAULT_BACKLOG)
        = some (pre.map .obj
            ++ .obj (applyTaskUpdate tk status notes t) :: post) ∧
      getKey (applyTaskUpdate tk status notes t) "id" = getKey tk "id" ∧
      getKey (applyTaskUpdate tk status notes t) "completed_at"
        = (if status = "completed" then some (.str t)
           else getKey tk "completed_at") ∧
      JValue.str t ≠ JValue.null := by
  have hloop := updateLoop_found pre tk post task_id status notes t
    (fun p hp => idMatches_eq_false p task_id (hpre p hp))
    (by simp [idMatches, htk])
  have hback : tasksOf (load_json (FileContent.doc
      (setKey (load_json st.backlogF DEFAULT_BACKLOG) "tasks"
        (.arr (pre.map .obj
          ++ .obj (applyTaskUpdate tk status notes t) :: post))))
      DEFAULT_BACKLOG)
      = some (pre.map .obj
          ++ .obj (applyTaskUpdate tk status notes t) :: post) := by
    simp [tasksOf, load_json, getKey_setKey_self]
  have hca : getKey (applyTaskUpdate tk status notes t) "completed_at"
      = (if status = "completed" then some (.str t)
         else getKey tk "completed_at") := by
    by_cases hs : status = "completed"
    · subst hs; rw [if_pos rfl]; exact applyTaskUpdate_completed_at tk notes t
    · rw [if_neg hs]; exact applyTaskUpdate_completed_at_ne tk status notes t hs
  by_cases hs : status = "completed"
  · subst hs
    cases hbm : bumpMetric (load_json st.stateF DEFAULT_STATE)
        "tasks_completed" with
    | none =>
      refine ⟨Store.mk st.stateF (.doc (setKey
          (load_json st.backlogF DEFAULT_BACKLOG) "tasks"
          (.arr (pre.map .obj
            ++ .obj (applyTaskUpdate tk "completed" notes t) :: post)))),
        .serverError, ?_, hback, applyTaskUpdate_id _ _ _ _, hca,
        fun h => JValue.noConfusion h⟩
      simp [updateTaskStore, h1, hloop, hbm]
    | some s' =>
      refine ⟨Store.mk (.doc s') (.doc (setKey
          (load_json st.backlogF DEFAULT_BACKLOG) "tasks"
          (.arr (pre.map .obj
            ++ .obj (applyTaskUpdate tk "completed" notes t) :: post)))),
        .okMsg ("Task " ++ task_id ++ " updated to " ++ "completed"), ?_,
        hback, applyTaskUpdate_id _ _ _ _, hca,
        fun h => JValue.noConfusion h⟩
      simp [updateTaskStore, h1, hloop, hbm]
  · refine ⟨Store.mk st.stateF (.doc (setKey
        (load_json st.backlogF DEFAULT_BACKLOG) "tasks"
        (.arr (pre.map .obj
          ++ .obj (applyTaskUpdate tk status notes t) :: post)))),
      .okMsg ("Task " ++ task_id ++ " updated to " ++ status), ?_, hback,
      applyTaskUpdate_id _ _ _ _, hca, fun h => JValue.noConfusion h⟩
    simp [updateTaskStore, h1, hloop, hs]

/-- Witness for the amended C6: re-completing an already-completed task. -/
theorem task_id_completed_at_amended_witness :
    (tasksOf (load_json (Store.mk .missing (.doc [("tasks", .arr
        [.obj [("id", .str "task-001"), ("status", .str "completed"),
               ("completed_at", .str "2026-10-12T00:05:00+00:00")]])])).backlogF
        DEFAULT_BACKLOG)
      = some (([] : List Doc).map .obj
          ++ .obj [("id", .str "task-001"), ("status", .str "completed"),
                   ("completed_at", .str "2026-10-12T00:05:00+00:00")]
            :: [])) ∧
    (getKey [("id", JValue.str "task-001"),
        ("status", JValue.str "completed"),
        ("completed_at", JValue.str "2026-10-12T00:05:00+00:00")] "id"
      = some (.str "task-001")) ∧
    (∃ st₁ r, updateTaskStore (Store.mk .missing (.doc [("tasks", .arr
          [.obj [("id", .str "task-001"), ("status", .str "completed"),
                 ("completed_at", .str "2026-10-12T00:05:00+00:00")]])]))
          "task-001" "completed" none "2026-10-12T00:06:00+00:00"
        = (st₁, r) ∧
      tasksOf (load_json st₁.backlogF DEFAULT_BACKLOG)
        = some (([] : List Doc).map .obj
            ++ .obj (applyTaskUpdate
              [("id", .str "task-001"), ("status", .str "completed"),
               ("completed_at", .str "2026-10-12T00:05:00+00:00")]
              "completed" none "2026-10-12T00:06:00+00:00") :: []) ∧
      getKey (applyTaskUpdate
          [("id", .str "task-001"), ("status", .str "completed"),
           ("completed_at", .str "2026-10-12T00:05:00+00:00")]
          "completed" none "2026-10-12T00:06:00+00:00") "id"
        = getKey [("id", JValue.str "task-001"),
            ("status", JValue.str "completed"),
            ("completed_at", JValue.str "2026-10-12T00:05:00+00:00")] "id" ∧
      getKey (applyTaskUpdate
          [("id", .str "task-001"), ("status", .str "completed"),
           ("completed_at", .str "2026-10-12T00:05:00+00:00")]
          "completed" none "2026-10-12T00:06:00+00:00") "completed_at"
        = (if ("completed" : String) = "completed" then
            some (.str "2026-10-12T00:06:00+00:00")
           else getKey [("id", JValue.str "task-001"),
              ("status", JValue.str "completed"),
              ("completed_at", JValue.str "2026-10-12T00:05:00+00:00")]
              "completed_at") ∧
      JValue.str "2026-10-12T00:06:00+00:00" ≠ JValue.null) :=
  ⟨rfl, rfl,
    task_id_completed_at_amended (Store.mk .missing (.doc [("tasks", .arr
        [.obj [("id", .str "task-001"), ("status", .str "completed"),
               ("completed_at", .str "2026-10-12T00:05:00+00:00")]])]))
      "task-001" "completed" "2026-10-12T00:06:00+00:00" none
      [] [("id", .str "task-001"), ("status", .str "completed"),
          ("completed_at", .str "2026-10-12T00:05:00+00:00")] []
      rfl (by simp) rfl⟩

/-- C7: on a backlog currently containing `n` tasks, `add_task` computes
the new id as `"task-"` followed by `n+1` zero-padded to 3 digits,
constructs the task with status `pending` and `created_at` set to the
current time, appends it at the end leaving all existing tasks
unchanged, persists, and returns the new id. -/
theorem add_task_spec (st : Store) (title description priority t : String)
    (xs : List JValue) (existing : List Doc)
    (h1 : tasksOf (load_json st.backlogF DEFAULT_BACKLOG) = some xs)
    (h2 : asObjs xs = some existing) :
    addTaskStore st title description priority t
      = (Store.mk st.stateF
          (.doc (setKey (load_json st.backlogF DEFAULT_BACKLOG) "tasks"
            (.arr (xs ++ [.obj (newTaskDoc
              ("task-" ++ pad3 (existing.length + 1))
              title description priority t)])))),
         .okTaskId ("task-" ++ pad3 (existing.length + 1))
           ("Task added: " ++ title)) ∧
    getKey (newTaskDoc ("task-" ++ pad3 (existing.length + 1))
        title description priority t) "status" = some (.str "pending") ∧
    getKey (newTaskDoc ("task-" ++ pad3 (existing.length + 1))
        title description priority t) "created_at" = some (.str t) ∧
    getKey (newTaskDoc ("task-" ++ pad3 (existing.length + 1))
        title description priority t) "id"
      = some (.str ("task-" ++ pad3 (existing.length + 1))) := by
  refine ⟨?_, rfl, rfl, rfl⟩
  simp [addTaskStore, add_task, h1, h2]

/-- Witness for C7: adding a task to a backlog holding one task. -/
theorem add_task_spec_witness :
    (tasksOf (load_json (Store.mk .missing (.doc [("tasks", .arr
        [.obj [("id", .str "task-001"), ("status", .str "pending")]])])).backlogF
        DEFAULT_BACKLOG)
      = some [.obj [("id", .str "task-001"), ("status", .str "pending")]]) ∧
    (asObjs [.obj [("id", .str "task-001"), ("status", .str "pending")]]
      = some [[("id", .str "task-001"), ("status", .str "pending")]]) ∧
    (addTaskStore (Store.mk .missing (.doc [("tasks", .arr
          [.obj [("id", .str "task-001"), ("status", .str "pending")]])]))
          "t2" "d2" "urgent" "2026-10-12T00:07:00+00:00"
      = (Store.mk .missing
          (.doc (setKey (load_json (Store.mk .missing (.doc [("tasks", .arr
            [.obj [("id", .str "task-001"),
                   ("status", .str "pending")]])])).backlogF DEFAULT_BACKLOG)
            "tasks"
            (.arr ([.obj [("id", .str "task-001"),
                ("status", .str "pending")]]
              ++ [.obj (newTaskDoc ("task-" ++ pad3
                  (([[("id", JValue.str "task-001"),
                      ("status", JValue.str "pending")]] : List Doc).length
                    + 1))
                  "t2" "d2" "urgent" "2026-10-12T00:07:00+00:00")])))),
         .okTaskId ("task-" ++ pad3
            (([[("id", JValue.str "task-001"),
                ("status", JValue.str "pending")]] : List Doc).length + 1))
           ("Task added: " ++ "t2")) ∧
    getKey (newTaskDoc ("task-" ++ pad3
        (([[("id", JValue.str "task-001"),
            ("status", JValue.str "pending")]] : List Doc).length + 1))
        "t2" "d2" "urgent" "2026-10-12T00:07:00+00:00") "status"
      = some (.str "pending") ∧
    getKey (newTaskDoc ("task-" ++ pad3
        (([[("id", JValue.str "task-001"),
            ("status", JValue.str "pending")]] : List Doc).length + 1))
        "t2" "d2" "urgent" "2026-10-12T00:07:00+00:00") "created_at"
      = some (.str "2026-10-12T00:07:00+00:00") ∧
    getKey (newTaskDoc ("task-" ++ pad3
        (([[("id", JValue.str "task-001"),
            ("status", JValue.str "pending")]] : List Doc).length + 1))
        "t2" "d2" "urgent" "2026-10-12T00:07:00+00:00") "id"
      = some (.str ("task-" ++ pad3
          (([[("id", JValue.str "task-001"),
              ("status", JValue.str "pending")]] : List Doc).length + 1)))) :=
  ⟨rfl, rfl,
    add_task_spec (Store.mk .missing (.doc [("tasks", .arr
        [.obj [("id", .str "task-001"), ("status", .str "pending")]])]))
      "t2" "d2" "urgent" "2026-10-12T00:07:00+00:00"
      [.obj [("id", .str "task-001"), ("status", .str "pending")]]
      [[("id", .str "task-001"), ("status", .str "pending")]] rfl rfl⟩

/-- C8: loading a document from a backing path that is missing or whose
contents fail to parse returns the documented schema default (empty
backlog, zeroed metrics, no tasks) instead of raising an error to the
calling operation; a parse failure is treated the same as a missing
file. -/
theorem load_json_default_spec :
    (∀ d : Doc, load_json .missing d = d) ∧
    (∀ d : Doc, load_json .corrupt d = d) ∧
    load_json .missing DEFAULT_STATE = DEFAULT_STATE ∧
    load_json .corrupt DEFAULT_STATE = DEFAULT_STATE ∧
    load_json .missing DEFAULT_BACKLOG = DEFAULT_BACKLOG ∧
    load_json .corrupt DEFAULT_BACKLOG = DEFAULT_BACKLOG ∧
    tasksOf DEFAULT_BACKLOG = some [] ∧
    metricInt DEFAULT_STATE "total_accomplishments" = some 0 ∧
    metricInt DEFAULT_STATE "tasks_completed" = some 0 ∧
    metricInt DEFAULT_STATE "notifications_sent" = some 0 ∧
    (∀ sf : FileContent, readBacklogStore (Store.mk sf .missing) "all"
        = (Store.mk sf .missing, .okTasks [] 0)) ∧
    (∀ sf : FileContent, readBacklogStore (Store.mk sf .corrupt) "all"
        = (Store.mk sf .corrupt, .okTasks [] 0)) := by
  refine ⟨fun d => rfl, fun d => rfl, rfl, rfl, rfl, rfl, rfl, rfl, rfl, rfl,
    ?_, ?_⟩
  · intro sf
    simp [readBacklogStore, read_backlog, load_json, tasksOf, asObjs,
      DEFAULT_BACKLOG, getKey, List.mergeSort]
  · intro sf
    simp [readBacklogStore, read_backlog, load_json, tasksOf, asObjs,
      DEFAULT_BACKLOG, getKey, List.mergeSort]

/-- C9: `send_notification` increments `metrics.notifications_sent` by
exactly 1 and reports success; it attempts an external forward of
`{message, priority, timestamp}` only when a webhook target is
configured and the priority is high or urgent, and the forwarding
outcome (caught locally) never changes the operation's result. -/
theorem send_notification_spec (st : Store)
    (message priority channel webhook t : String) (k : Int) (ok : Bool)
    (hmet : metricInt (load_json st.stateF DEFAULT_STATE)
      "notifications_sent" = some k) :
    ∃ s', sendNotificationStore st message priority channel webhook t ok
      = (Store.mk (.doc s') st.backlogF, .okMsg "Notification sent",
         if webhook ≠ "" ∧ (priority = "high" ∨ priority = "urgent") then
           some ⟨message, priority, t⟩
         else none) ∧
      metricInt s' "notifications_sent" = some (k + 1) ∧
      (∀ ok₁ ok₂ : Bool,
        sendNotificationStore st message priority channel webhook t ok₁
          = sendNotificationStore st message priority channel webhook t ok₂) := by
  obtain ⟨s', hbump, hmet', hframe⟩ :=
    bumpMetric_eq _ "notifications_sent" k hmet
  exact ⟨s', by simp [sendNotificationStore, send_notification, hbump],
    hmet', fun ok₁ ok₂ => rfl⟩

/-- Witness for C9: a high-priority notification with a configured
webhook over the default state. -/
theorem send_notification_spec_witness :
    (metricInt (load_json (Store.mk .missing .missing).stateF DEFAULT_STATE)
      "notifications_sent" = some 0) ∧
    (∃ s', sendNotificationStore (Store.mk .missing .missing)
          "disk almost full" "high" "webhook" "https://hook.invalid/x"
          "2026-10-12T00:08:00+00:00" true
        = (Store.mk (.doc s') .missing, .okMsg "Notification sent",
           if ("https://hook.invalid/x" : String) ≠ ""
               ∧ (("high" : String) = "high" ∨ ("high" : String) = "urgent") then
             some ⟨"disk almost full", "high", "2026-10-12T00:08:00+00:00"⟩
           else none) ∧
      metricInt s' "notifications_sent" = some (0 + 1) ∧
      (∀ ok₁ ok₂ : Bool,
        sendNotificationStore (Store.mk .missing .missing)
            "disk almost full" "high" "webhook" "https://hook.invalid/x"
            "2026-10-12T00:08:00+00:00" ok₁
          = sendNotificationStore (Store.mk .missing .missing)
              "disk almost full" "high" "webhook" "https://hook.invalid/x"
              "2026-10-12T00:08:00+00:00" ok₂)) :=
  ⟨rfl, send_notification_spec (Store.mk .missing .missing)
    "disk almost full" "high" "webhook" "https://hook.invalid/x"
    "2026-10-12T00:08:00+00:00" 0 true rfl⟩

end WakeTools
